import Mathlib

/-!
Verification of the lendsqr credential-lifecycle core (src/models/User.ts,
src/config/database.ts, knexfile.ts, src/database/migrations/...).

The TypeScript source is shallowly embedded: the database is an explicit
state value threaded through the repository operations, bcryptjs is modelled
as an idealized salted one-way encoding (injective in plaintext and salt,
self-verifying, cost factor 10 baked into the format marker), and the
per-call random salt of bcrypt.hash is modelled by threading a salt-supply
counter, one fresh value consumed per hash call.
-/

namespace Lendsqr

/-! ## Credential codec (src/models/User.ts lines 19-29, bcryptjs model)

`bcrypt.hash(p, 10)` produces a string `$2b$10$<salt><digest>`; the salt is
drawn at random per call and the digest is a one-way function of salt and
plaintext. We model the produced string as a format marker for cost 10,
followed by an injective rendering of the salt (a run of '1' characters, one
per unit — any injective, separator-free rendering is equivalent for the
verified properties), a separator, and an injective digest of the plaintext.
`bcrypt.compare` parses the salt out of the stored hash, recomputes, and
compares; on a malformed hash it resolves to false rather than rejecting. -/

def saltChars (salt : Nat) : List Char := List.replicate salt '1'

def costMarker : List Char := ['$', '2', 'b', '$', '1', '0', '$']

def hashString (password : String) (salt : Nat) : String :=
  ⟨costMarker ++ saltChars salt ++ '$' :: password.data⟩

def dropLead? : List Char → List Char → Option (List Char)
  | [], l => some l
  | _ :: _, [] => none
  | p :: ps, c :: cs => if p == c then dropLead? ps cs else none

def splitAtDollar : List Char → Option (List Char × List Char)
  | [] => none
  | c :: cs =>
    if c == '$' then some ([], cs)
    else
      match splitAtDollar cs with
      | some (l, r) => some (c :: l, r)
      | none => none

def verifyString (plain hashed : String) : Bool :=
  match dropLead? costMarker hashed.data with
  | none => false
  | some rest =>
    match splitAtDollar rest with
    | none => false
    | some (saltStr, _) =>
      if saltStr.all (fun c => c == '1') then
        hashString plain saltStr.length == hashed
      else false

/-- The `SALT_ROUNDS` constant of src/models/User.ts line 19. -/
def SALT_ROUNDS : Nat := 10

/-- Function `hashPassword` (src/models/User.ts lines 22-24): bcrypt.hash with a fresh
random salt per call, modelled by consuming one value from a salt-supply
counter threaded through the write paths. -/
def hashPassword (password : String) (rng : Nat) : String × Nat :=
  (hashString password rng, rng + 1)

/-- Function `verifyPassword` (src/models/User.ts lines 27-29): bcrypt.compare. -/
def verifyPassword (plainPassword hashedPassword : String) : Bool :=
  verifyString plainPassword hashedPassword

lemma dropLead?_append (pre l : List Char) : dropLead? pre (pre ++ l) = some l := by
  induction pre with
  | nil => rfl
  | cons c cs ih => simp [dropLead?, ih]

lemma splitAtDollar_append (l1 l2 : List Char) (h : ∀ c ∈ l1, c ≠ '$') :
    splitAtDollar (l1 ++ '$' :: l2) = some (l1, l2) := by
  induction l1 with
  | nil => rfl
  | cons c cs ih =>
    have hc : c ≠ '$' := h c (List.mem_cons_self _ _)
    have hcb : (c == '$') = false := by
      simp [hc]
    have ih' := ih (fun x hx => h x (List.mem_cons_of_mem _ hx))
    simp [List.cons_append, splitAtDollar, hcb, ih']

lemma saltChars_no_dollar (s : Nat) : ∀ c ∈ saltChars s, c ≠ '$' := by
  intro c hc
  have : c = '1' := List.eq_of_mem_replicate hc
  simp [this]

lemma saltChars_all_one (s : Nat) :
    (saltChars s).all (fun c => c == '1') = true := by
  simp [saltChars, List.all_eq_true]

lemma saltChars_length (s : Nat) : (saltChars s).length = s := by
  simp [saltChars]

lemma hashString_data (p : String) (s : Nat) :
    (hashString p s).data = costMarker ++ saltChars s ++ '$' :: p.data := rfl

lemma hashString_inj {p1 p2 : String} {s1 s2 : Nat}
    (h : hashString p1 s1 = hashString p2 s2) : p1 = p2 ∧ s1 = s2 := by
  have hd : costMarker ++ (saltChars s1 ++ '$' :: p1.data)
      = costMarker ++ (saltChars s2 ++ '$' :: p2.data) := by
    have := congrArg String.data h
    simpa [hashString_data, List.append_assoc] using this
  have hmid : saltChars s1 ++ '$' :: p1.data = saltChars s2 ++ '$' :: p2.data :=
    List.append_cancel_left hd
  have hsplit : some (saltChars s1, p1.data) = some (saltChars s2, p2.data) := by
    rw [← splitAtDollar_append (saltChars s1) p1.data (saltChars_no_dollar s1),
      ← splitAtDollar_append (saltChars s2) p2.data (saltChars_no_dollar s2), hmid]
  have hsalt : saltChars s1 = saltChars s2 := by
    injection hsplit with h1
    exact congrArg Prod.fst h1
  have hpd : p1.data = p2.data := by
    injection hsplit with h1
    exact congrArg Prod.snd h1
  refine ⟨?_, ?_⟩
  · cases p1
    cases p2
    exact congrArg String.mk hpd
  · have := congrArg List.length hsalt
    simpa [saltChars_length] using this

lemma dropLead?_hashString (p : String) (s : Nat) :
    dropLead? costMarker (hashString p s).data
      = some (saltChars s ++ '$' :: p.data) := by
  rw [hashString_data, List.append_assoc, dropLead?_append]

/-- bcrypt.compare succeeds on a hash produced from the same plaintext. -/
lemma verify_hash_self (p : String) (s : Nat) :
    verifyString p (hashString p s) = true := by
  unfold verifyString
  simp only [dropLead?_hashString,
    splitAtDollar_append (saltChars s) p.data (saltChars_no_dollar s),
    saltChars_all_one, saltChars_length, if_true]
  exact beq_self_eq_true _

/-- bcrypt.compare fails on a hash produced from a different plaintext. -/
lemma verify_hash_other {p1 p2 : String} (s : Nat) (h : p1 ≠ p2) :
    verifyString p1 (hashString p2 s) = false := by
  unfold verifyString
  simp only [dropLead?_hashString,
    splitAtDollar_append (saltChars s) p2.data (saltChars_no_dollar s),
    saltChars_all_one, saltChars_length, if_true]
  rw [beq_eq_false_iff_ne]
  intro heq
  exact h (hashString_inj heq).1

/-- If bcrypt.compare succeeds then the stored string really is a well-formed
hash of the supplied plaintext; contrapositively, on any string that is not a
well-formed hash of the plaintext (in particular any malformed hash), it
returns false rather than raising. -/
lemma verify_eq_true_exists {plain hashed : String}
    (h : verifyString plain hashed = true) :
    ∃ s : Nat, hashed = hashString plain s := by
  unfold verifyString at h
  split at h
  · exact absurd h (by simp)
  · rename_i rest hdrop
    split at h
    · exact absurd h (by simp)
    · rename_i saltStr tail hsplit
      split at h
      · exact ⟨saltStr.length, (eq_of_beq h).symm⟩
      · exact absurd h (by simp)

/-! ## User repository (src/models/User.ts)

The `users` table is modelled as an explicit state value: the list of rows in
insertion order, the next AUTO_INCREMENT id, and the server clock used for
the `DEFAULT now()` column values and `fn.now()`.  The `User` interface field
layout follows src/models/User.ts lines 4-12 (optional fields as `Option`). -/

structure User where
  id : Option Nat
  email : String
  password : String
  first_name : String
  last_name : String
  created_at : Option Nat
  updated_at : Option Nat
deriving DecidableEq

structure Db where
  rows : List User
  nextId : Nat
  now : Nat
deriving DecidableEq

/-- Raw storage-engine error signals as surfaced by the mysql2 driver through
knex (e.g. the `ER_DUP_ENTRY` code raised on a unique-constraint violation).
The repository code installs no translation layer, so these reach its caller
verbatim. -/
inductive DbError where
  | erDupEntry
deriving DecidableEq

/-- Errors the repository's `createUser` can surface: a raw storage-engine
error propagated untranslated, or a thrown `Error(msg)`. -/
inductive RepoError where
  | storage (e : DbError)
  | thrown (msg : String)
deriving DecidableEq

/-- Modelled from the spec: the spec demands that a unique-constraint
violation be "translated from the storage engine's native conflict signal —
do not leak the raw storage-engine code to callers".  This predicate holds of
an error value exactly when it still carries the raw storage-engine signal,
i.e. when that demand is violated. -/
def surfacesRawStorageCode : RepoError → Bool
  | .storage _ => true
  | .thrown _ => false

/-- Type `CreateUserInput = Omit<User, 'id' | 'created_at' | 'updated_at'>`
(src/models/User.ts line 14). -/
structure CreateUserInput where
  email : String
  password : String
  first_name : String
  last_name : String
deriving DecidableEq

/-- Type `UpdateUserInput` (src/models/User.ts lines 15-17): partial fields, no
id/email/timestamps; `none` models an absent key. -/
structure UpdateUserInput where
  password : Option String
  first_name : Option String
  last_name : Option String
deriving DecidableEq

/-- The statement `knex('users').insert(...)`: the unique index on `email` makes the engine
reject a duplicate with its native `ER_DUP_ENTRY` signal; otherwise the row
is appended with the AUTO_INCREMENT id and `DEFAULT now()` timestamps, and
the generated id is returned. -/
def insertUser (db : Db) (row : User) : Except DbError (Nat × Db) :=
  if db.rows.any (fun u => u.email == row.email) then
    .error .erDupEntry
  else
    .ok (db.nextId,
      { rows := db.rows ++
          [{ row with
              id := some db.nextId,
              created_at := some db.now,
              updated_at := some db.now }],
        nextId := db.nextId + 1,
        now := db.now })

/-- Function `findUserByEmail` (src/models/User.ts lines 48-50):
`where({email}).first()`. -/
def findUserByEmail (db : Db) (email : String) : Option User :=
  db.rows.find? (fun u => u.email == email)

/-- Function `findUserById` (src/models/User.ts lines 52-54): `where({id}).first()`. -/
def findUserById (db : Db) (id : Nat) : Option User :=
  db.rows.find? (fun u => u.id == some id)

/-- Function `createUser` (src/models/User.ts lines 31-46): hash the password, insert,
re-read the created row by the generated id, throw `'Failed to create user'`
if the re-read misses.  The storage error from the insert is not caught, so
it propagates raw. -/
def createUser (db : Db) (userData : CreateUserInput) (rng : Nat) :
    Except RepoError User × Db × Nat :=
  let hp := hashPassword userData.password rng
  match insertUser db
      { id := none,
        email := userData.email,
        password := hp.1,
        first_name := userData.first_name,
        last_name := userData.last_name,
        created_at := none,
        updated_at := none } with
  | .error e => (.error (.storage e), db, hp.2)
  | .ok idDb =>
    match findUserById idDb.2 idDb.1 with
    | none => (.error (.thrown "Failed to create user"), idDb.2, hp.2)
    | some newUser => (.ok newUser, idDb.2, hp.2)

/-- Function `updateUser` (src/models/User.ts lines 56-72).  The guard
`if (updates.password)` is JavaScript truthiness: the hash replaces the
spread-in plaintext only when the provided password is a non-empty string; a
provided empty string stays in `updateData` verbatim.  The update statement
always stamps `updated_at` with `fn.now()` on every matched row, then the
row is re-read by id. -/
def updateUser (db : Db) (id : Nat) (updates : UpdateUserInput) (rng : Nat) :
    Option User × Db × Nat :=
  let pwAndRng : Option String × Nat :=
    match updates.password with
    | some p =>
      if p ≠ "" then
        let hp := hashPassword p rng
        (some hp.1, hp.2)
      else (some p, rng)
    | none => (none, rng)
  let db' : Db :=
    { db with
        rows := db.rows.map (fun u =>
          if u.id == some id then
            { u with
                password := pwAndRng.1.getD u.password,
                first_name := updates.first_name.getD u.first_name,
                last_name := updates.last_name.getD u.last_name,
                updated_at := some db.now }
          else u) }
  (findUserById db' id, db', pwAndRng.2)

/-- Function `deleteUser` (src/models/User.ts lines 74-76): `del()` returns the
number of affected rows. -/
def deleteUser (db : Db) (id : Nat) : Nat × Db :=
  let remaining := db.rows.filter (fun u => !(u.id == some id))
  (db.rows.length - remaining.length, { db with rows := remaining })

/-- Function `verifyUserCredentials` (src/models/User.ts lines 78-86). -/
def verifyUserCredentials (db : Db) (email password : String) : Option User :=
  match findUserByEmail db email with
  | none => none
  | some user =>
    if verifyPassword password user.password then some user else none

/-! ## sanitizeUser (src/models/User.ts lines 88-92)

`const { password, ...userWithoutPassword } = user` removes exactly the
`password` key of the JavaScript object and keeps every other key with its
value, in insertion order.  Objects are modelled as key/value lists. -/

inductive JsValue where
  | num (n : Nat)
  | str (s : String)
  | jsUndefined
deriving DecidableEq

def optNum : Option Nat → JsValue
  | some n => .num n
  | none => .jsUndefined

/-- The JavaScript object underlying a `User` value, keys in the interface's
declaration order. -/
def userToObject (u : User) : List (String × JsValue) :=
  [("id", optNum u.id),
   ("email", .str u.email),
   ("password", .str u.password),
   ("first_name", .str u.first_name),
   ("last_name", .str u.last_name),
   ("created_at", optNum u.created_at),
   ("updated_at", optNum u.updated_at)]

/-- Function `sanitizeUser`: the rest-destructuring keeps every key except
`password`. -/
def sanitizeUser (u : User) : List (String × JsValue) :=
  [("id", optNum u.id),
   ("email", .str u.email),
   ("first_name", .str u.first_name),
   ("last_name", .str u.last_name),
   ("created_at", optNum u.created_at),
   ("updated_at", optNum u.updated_at)]

/-! ## Users-table migration (src/database/migrations/20240731130000_create_users_table.ts)

The schema state tracks whether the `users` table exists and its rows.  A raw
`createTable` against an existing table is the engine's duplicate-table
error; `up()` guards it with `hasTable`. -/

structure SchemaState where
  hasUsersTable : Bool
  userRows : List User
deriving DecidableEq

inductive SchemaError where
  | duplicateTable
deriving DecidableEq

/-- The statement `knex.schema.createTable('users', ...)`: fails with the engine's
duplicate-table error if the table already exists, otherwise creates the
empty table (with its unique email index). -/
def createUsersTable (s : SchemaState) : Except SchemaError SchemaState :=
  if s.hasUsersTable then .error .duplicateTable
  else .ok { hasUsersTable := true, userRows := [] }

/-- Migration `up` (migration lines 3-23): checks `hasTable('users')` and only creates
when absent. -/
def migrationUp (s : SchemaState) : Except SchemaError SchemaState :=
  if s.hasUsersTable then .ok s
  else createUsersTable s

/-- Migration `down` (migration lines 25-27): `dropTableIfExists`. -/
def migrationDown (_s : SchemaState) : Except SchemaError SchemaState :=
  .ok { hasUsersTable := false, userRows := [] }

/-! ## Connection-parameter resolution (knexfile.ts lines 59-77)

`getConnectionConfig` reads the environment: if `DATABASE_URL` is set it is
parsed as a URL and its components win outright; otherwise the discrete
`DB_*` variables are used, each falling back to its default.  The platform's
URL parser is modelled by its parsed components; `parseInt(s, 10)` is
modelled by its leading-digits behaviour, `none` standing for NaN. -/

structure UrlParts where
  hostname : String
  port : String
  username : String
  password : String
  pathname : String
deriving DecidableEq

structure Env where
  DATABASE_URL : Option UrlParts
  DB_HOST : Option String
  DB_PORT : Option String
  DB_USER : Option String
  DB_PASSWORD : Option String
  DB_NAME : Option String
deriving DecidableEq

def digitsVal (l : List Char) : Nat :=
  l.foldl (fun acc c => acc * 10 + (c.toNat - '0'.toNat)) 0

/-- JavaScript `parseInt(s, 10)`: parse the leading run of digits, NaN (`none`) when
there is none. -/
def parseIntJs (s : String) : Option Nat :=
  let ds := s.data.takeWhile (fun c => c.isDigit)
  if ds.isEmpty then none else some (digitsVal ds)

structure ConnParams where
  host : String
  port : Option Nat
  user : String
  password : String
  database : String
deriving DecidableEq

/-- The expression stripping one leading slash from `url.pathname`. -/
def stripLeadingSlash (s : String) : String :=
  if s.startsWith "/" then s.drop 1 else s

/-- Function `getConnectionConfig` (knexfile.ts lines 59-77).  In the URL branch the
code computes `parseInt(url.port, 10) || 3306`, so both NaN and 0 fall back
to 3306 (JavaScript falsiness). -/
def getConnectionConfig (env : Env) : ConnParams :=
  match env.DATABASE_URL with
  | some url =>
    { host := url.hostname,
      port :=
        match parseIntJs url.port with
        | none => some 3306
        | some 0 => some 3306
        | some n => some n,
      user := url.username,
      password := url.password,
      database := stripLeadingSlash url.pathname }
  | none =>
    { host := env.DB_HOST.getD "localhost",
      port := parseIntJs (env.DB_PORT.getD "3306"),
      user := env.DB_USER.getD "root",
      password := env.DB_PASSWORD.getD "",
      database := env.DB_NAME.getD "lendsqr" }

/-! ## Database provisioning (src/config/database.ts lines 50-107)

`initializeDatabase` opens a temporary connection without a selected
database, checks the catalog, creates the database when absent, and closes
the temporary connection in a `finally` block before opening the real pooled
connection.  The interaction with the storage server is modelled as an event
trace parameterised by an oracle fixing the outcome of each external call. -/

inductive DbEvent where
  | openTemp
  | tempQuery (q : String)
  | closeTemp
  | openMain
  | mainQuery (q : String)
  | closeMain
deriving DecidableEq

inductive InitOutcome where
  | ok
  | thrown (msg : String)
  | fatalExit
deriving DecidableEq

/-- Outcomes of the external calls made during provisioning: the catalog
query (rows returned, or a thrown error), the create-database statement, the
`SELECT 1` liveness probe, the migration run, and whether `NODE_ENV` is
`test` (which suppresses the migration run). -/
structure InitOracle where
  schemaRows : Except String (List String)
  createDb : Except String Unit
  liveness : Except String Unit
  migrate : Except String Unit
  isTestEnv : Bool

/-- The `ensureDatabaseExists` block of `initializeDatabase` (database.ts
lines 54-79): try / catch-rethrow / finally destroy. -/
def ensureDatabaseEvents (o : InitOracle) : List DbEvent × Option String :=
  match o.schemaRows with
  | .error e =>
    ([.openTemp, .tempQuery "SELECT SCHEMA_NAME", .closeTemp], some e)
  | .ok rows =>
    if rows.length == 0 then
      match o.createDb with
      | .error e =>
        ([.openTemp, .tempQuery "SELECT SCHEMA_NAME",
          .tempQuery "CREATE DATABASE", .closeTemp], some e)
      | .ok _ =>
        ([.openTemp, .tempQuery "SELECT SCHEMA_NAME",
          .tempQuery "CREATE DATABASE", .closeTemp], none)
    else
      ([.openTemp, .tempQuery "SELECT SCHEMA_NAME", .closeTemp], none)

/-- Function `initializeDatabase` (database.ts lines 50-107) as an event trace: after
the ensure block, the real pooled connection is opened, probed with
`SELECT 1`, and migrations run outside test mode; a failure in that try
block destroys the main handle and exits the process. -/
def initializeDatabase (o : InitOracle) : List DbEvent × InitOutcome :=
  match ensureDatabaseEvents o with
  | (ev, some e) => (ev, .thrown e)
  | (ev, none) =>
    let ev2 := ev ++ [.openMain, .mainQuery "SELECT 1"]
    match o.liveness with
    | .error _ => (ev2 ++ [.closeMain], .fatalExit)
    | .ok _ =>
      if o.isTestEnv then (ev2, .ok)
      else
        match o.migrate with
        | .error _ => (ev2 ++ [.mainQuery "migrate latest", .closeMain], .fatalExit)
        | .ok _ => (ev2 ++ [.mainQuery "migrate latest"], .ok)

/-- Scoped-temporary-connection checker: scanning the trace, before the
single `closeTemp` no main-connection event occurs, and after it no
temporary-connection event occurs; `closeTemp` must occur. -/
def checkScoped : List DbEvent → Bool → Bool
  | [], seenClose => seenClose
  | e :: rest, seenClose =>
    match e with
    | .closeTemp => !seenClose && checkScoped rest true
    | .openTemp => !seenClose && checkScoped rest seenClose
    | .tempQuery _ => !seenClose && checkScoped rest seenClose
    | .openMain => seenClose && checkScoped rest seenClose
    | .mainQuery _ => seenClose && checkScoped rest seenClose
    | .closeMain => seenClose && checkScoped rest seenClose

def tempConnectionScoped (ev : List DbEvent) : Bool :=
  checkScoped ev false

/-! ## Concrete fixtures shared by the claim witnesses -/

def demoUser : User :=
  { id := some 1, email := "a@x.com", password := hashString "Passw0rd" 0,
    first_name := "A", last_name := "B",
    created_at := some 1, updated_at := some 1 }

def demoDb : Db := { rows := [demoUser], nextId := 2, now := 5 }

def emptyDb : Db := { rows := [], nextId := 1, now := 0 }

/-! ## Claims -/

/-- C3: for every plaintext password p, `verifyPassword(p, hashPassword(p))`
returns true, and two separate calls to `hashPassword(p)` on the same input
(the second consuming the salt the supply yields after the first) produce
different hash values, because a fresh random salt is drawn per call. -/
theorem claim_C3 (p : String) (rng : Nat) :
    verifyPassword p (hashPassword p rng).1 = true ∧
    verifyPassword p (hashPassword p (hashPassword p rng).2).1 = true ∧
    (hashPassword p rng).1 ≠ (hashPassword p (hashPassword p rng).2).1 := by
  refine ⟨verify_hash_self p rng, verify_hash_self p (rng + 1), ?_⟩
  intro h
  have h2 := (hashString_inj h).2
  simp [hashPassword] at h2

/-- C9: `verifyPassword` returns false — not an error (it is a total
Boolean-valued function) — on a hash of any different plaintext, and it can
only return true on a well-formed hash of the supplied plaintext, so on any
malformed hash it likewise returns false rather than raising. -/
theorem claim_C9 :
    (∀ (p1 p2 : String) (s : Nat), p1 ≠ p2 →
      verifyPassword p1 (hashString p2 s) = false) ∧
    (∀ plain hashed : String, verifyPassword plain hashed = true →
      ∃ s : Nat, hashed = hashString plain s) :=
  ⟨fun _ _ s h => verify_hash_other s h,
   fun _ _ h => verify_eq_true_exists h⟩

/-- Witness for C9 at concrete inputs: "PassA" against a hash of "PassB"
verifies false, and a string on which verification succeeds is a hash of the
verified plaintext. -/
theorem claim_C9_witness :
    verifyPassword "PassA" (hashString "PassB" 3) = false ∧
    ∃ s : Nat, hashString "PassA" 5 = hashString "PassA" s :=
  ⟨claim_C9.1 "PassA" "PassB" 3 (by decide),
   claim_C9.2 "PassA" (hashString "PassA" 5) (verify_hash_self "PassA" 5)⟩

/-- C4: the object returned by `sanitizeUser` has no `password` key, and
every other field of the input — id, email, first_name, last_name,
created_at, updated_at — is preserved unchanged. -/
theorem claim_C4 (u : User) :
    (sanitizeUser u).lookup "password" = none ∧
    (sanitizeUser u).lookup "id" = (userToObject u).lookup "id" ∧
    (sanitizeUser u).lookup "email" = (userToObject u).lookup "email" ∧
    (sanitizeUser u).lookup "first_name" = (userToObject u).lookup "first_name" ∧
    (sanitizeUser u).lookup "last_name" = (userToObject u).lookup "last_name" ∧
    (sanitizeUser u).lookup "created_at" = (userToObject u).lookup "created_at" ∧
    (sanitizeUser u).lookup "updated_at" = (userToObject u).lookup "updated_at" :=
  ⟨rfl, rfl, rfl, rfl, rfl, rfl, rfl⟩

/-- C5: `verifyUserCredentials` returns the same `none` value both when no
user with the email exists and when the user exists but the password does
not verify against the stored hash — the two failure cases are
indistinguishable in the return value — and returns the user exactly when
the email is found and the password verifies. -/
theorem claim_C5 (db : Db) (email pw : String) :
    (findUserByEmail db email = none → verifyUserCredentials db email pw = none) ∧
    (∀ u : User, findUserByEmail db email = some u →
      verifyPassword pw u.password = false →
      verifyUserCredentials db email pw = none) ∧
    (∀ u : User, verifyUserCredentials db email pw = some u ↔
      (findUserByEmail db email = some u ∧ verifyPassword pw u.password = true)) := by
  refine ⟨?_, ?_, ?_⟩
  · intro h
    simp [verifyUserCredentials, h]
  · intro u h hv
    simp [verifyUserCredentials, h, hv]
  · intro u
    cases hf : findUserByEmail db email with
    | none => simp [verifyUserCredentials, hf]
    | some v =>
      by_cases hv : verifyPassword pw v.password = true
      · simp only [verifyUserCredentials, hf, hv, if_true, Option.some_inj,
          Option.some.injEq]
        constructor
        · intro h
          subst h
          exact ⟨rfl, hv⟩
        · intro h
          exact h.1
      · have hv' : verifyPassword pw v.password = false := by
          simpa using hv
        simp only [verifyUserCredentials, hf, hv', if_false]
        constructor
        · intro h
          exact absurd h (by simp)
        · intro h
          injection h.1 with h1
          subst h1
          exact absurd h.2 hv

/-- Witness for C5: missing email gives none, wrong password gives the same
none, matching credentials return the stored user. -/
theorem claim_C5_witness :
    verifyUserCredentials emptyDb "a@x.com" "pw" = none ∧
    verifyUserCredentials demoDb "a@x.com" "wrong" = none ∧
    verifyUserCredentials demoDb "a@x.com" "Passw0rd" = some demoUser :=
  ⟨(claim_C5 emptyDb "a@x.com" "pw").1 rfl,
   (claim_C5 demoDb "a@x.com" "wrong").2.1 demoUser rfl
     (verify_hash_other 0 (by decide)),
   ((claim_C5 demoDb "a@x.com" "Passw0rd").2.2 demoUser).mpr
     ⟨rfl, verify_hash_self "Passw0rd" 0⟩⟩

def dupInput : CreateUserInput :=
  { email := "a@x.com", password := "Other1", first_name := "C", last_name := "D" }

/-- C1 counterexample: creating a user whose email already exists fails, but
not with a named `DuplicateEmail` error kind — `createUser` installs no
translation, so the storage engine's raw conflict signal (`ER_DUP_ENTRY`) is
surfaced to the caller verbatim, which the claim says must not happen. -/
theorem claim_C1_counterexample :
    (createUser demoDb dupInput 0).1
      = Except.error (RepoError.storage DbError.erDupEntry) ∧
    surfacesRawStorageCode (RepoError.storage DbError.erDupEntry) = true :=
  ⟨rfl, rfl⟩

/-- C1 amended: for every create of a user whose email already exists, the
create fails — surfacing the storage engine's raw `ER_DUP_ENTRY` conflict
signal untranslated — and the stored rows (in particular the original row
for that email) are unchanged. -/
theorem claim_C1_amended (db : Db) (input : CreateUserInput) (rng : Nat)
    (h : ∃ u ∈ db.rows, u.email = input.email) :
    createUser db input rng
      = (Except.error (RepoError.storage DbError.erDupEntry), db, rng + 1) := by
  have hany : db.rows.any (fun u => u.email == input.email) = true := by
    rcases h with ⟨u, hu, he⟩
    exact List.any_eq_true.mpr ⟨u, hu, by simp [he]⟩
  unfold createUser insertUser
  simp [hany, hashPassword]

/-- Witness for C1 amended at the concrete duplicate input. -/
theorem claim_C1_amended_witness :
    createUser demoDb dupInput 0
      = (Except.error (RepoError.storage DbError.erDupEntry), demoDb, 1) :=
  claim_C1_amended demoDb dupInput 0 ⟨demoUser, by simp [demoDb], rfl⟩

def pwUpdateEmpty : UpdateUserInput :=
  { password := some "", first_name := none, last_name := none }

/-- C2, evaluated at the failing input: calling `updateUser` with a provided
password that is the empty string persists the plaintext `""` verbatim — the
JavaScript truthiness guard `if (updates.password)` skips hashing while the
spread still writes the field — contradicting the claim that every provided
password is stored as its hash (the hash the salt supply would have produced
is a 15-character bcrypt string, not `""`). -/
theorem claim_C2_bug :
    (findUserById (updateUser demoDb 1 pwUpdateEmpty 7).2.1 1).map User.password
      = some "" ∧
    hashString "" 7 ≠ "" :=
  ⟨rfl, by decide⟩

def provisionedSchema : SchemaState :=
  { hasUsersTable := true, userRows := [demoUser] }

/-- C6: running the users-table migration `up()` against a schema where the
users table already exists returns the schema unchanged — no create is
performed, no duplicate-table error is raised, no rows are lost — and any
state produced by a successful run is a fixed point of a second run. -/
theorem claim_C6 :
    (∀ s : SchemaState, s.hasUsersTable = true → migrationUp s = .ok s) ∧
    (∀ s t : SchemaState, migrationUp s = .ok t → migrationUp t = .ok t) := by
  constructor
  · intro s h
    simp [migrationUp, h]
  · intro s t h
    have ht : t.hasUsersTable = true := by
      unfold migrationUp createUsersTable at h
      by_cases hs : s.hasUsersTable = true
      · rw [if_pos hs] at h
        injection h with h1
        rw [← h1]
        exact hs
      · rw [if_neg hs, if_neg hs] at h
        injection h with h1
        rw [← h1]
    simp [migrationUp, ht]

/-- Witness for C6: a provisioned schema with a stored row is untouched by a
second `up()`, and the state left by a first run on an empty schema is left
unchanged by a second run. -/
theorem claim_C6_witness :
    migrationUp provisionedSchema = .ok provisionedSchema ∧
    migrationUp { hasUsersTable := true, userRows := [] }
      = .ok { hasUsersTable := true, userRows := [] } :=
  ⟨claim_C6.1 provisionedSchema rfl,
   claim_C6.2 { hasUsersTable := false, userRows := [] }
     { hasUsersTable := true, userRows := [] } rfl⟩

/-- C7: config resolution merges the connection-string and discrete-field
forms.  When `DATABASE_URL` is present its parsed components determine every
parameter and the discrete variables are ignored entirely (the URL form
wins); when it is absent, each unset discrete field falls back to its
documented default: host `localhost`, port `3306`, user `root`, password the
empty string, database the fixed default name `lendsqr`. -/
theorem claim_C7 :
    (∀ (env env' : Env) (url : UrlParts),
      env.DATABASE_URL = some url → env'.DATABASE_URL = some url →
      getConnectionConfig env = getConnectionConfig env') ∧
    (∀ (env : Env) (url : UrlParts), env.DATABASE_URL = some url →
      (getConnectionConfig env).host = url.hostname ∧
      (getConnectionConfig env).user = url.username ∧
      (getConnectionConfig env).password = url.password ∧
      (getConnectionConfig env).database = stripLeadingSlash url.pathname) ∧
    (∀ env : Env, env.DATABASE_URL = none →
      (env.DB_HOST = none → (getConnectionConfig env).host = "localhost") ∧
      (env.DB_PORT = none → (getConnectionConfig env).port = some 3306) ∧
      (env.DB_USER = none → (getConnectionConfig env).user = "root") ∧
      (env.DB_PASSWORD = none → (getConnectionConfig env).password = "") ∧
      (env.DB_NAME = none → (getConnectionConfig env).database = "lendsqr")) := by
  refine ⟨?_, ?_, ?_⟩
  · intro env env' url h h'
    simp [getConnectionConfig, h, h']
  · intro env url h
    simp [getConnectionConfig, h]
  · intro env h
    refine ⟨?_, ?_, ?_, ?_, ?_⟩ <;> intro h'
    · simp [getConnectionConfig, h, h']
    · simp only [getConnectionConfig, h, h', Option.getD_none]
      decide
    · simp [getConnectionConfig, h, h']
    · simp [getConnectionConfig, h, h']
    · simp [getConnectionConfig, h, h']

def urlFixture : UrlParts :=
  { hostname := "db.example.com", port := "3307", username := "svc",
    password := "secret", pathname := "/proddb" }

def envWithUrl : Env :=
  { DATABASE_URL := some urlFixture, DB_HOST := some "other-host",
    DB_PORT := some "9999", DB_USER := some "other", DB_PASSWORD := some "x",
    DB_NAME := some "otherdb" }

def envWithUrlOnly : Env :=
  { DATABASE_URL := some urlFixture, DB_HOST := none, DB_PORT := none,
    DB_USER := none, DB_PASSWORD := none, DB_NAME := none }

def envBare : Env :=
  { DATABASE_URL := none, DB_HOST := none, DB_PORT := none, DB_USER := none,
    DB_PASSWORD := none, DB_NAME := none }

/-- Witness for C7: the URL form yields the same parameters whether or not
discrete variables are also set, its components are taken verbatim, and a
bare environment resolves to every documented default. -/
theorem claim_C7_witness :
    getConnectionConfig envWithUrl = getConnectionConfig envWithUrlOnly ∧
    (getConnectionConfig envWithUrl).host = "db.example.com" ∧
    (getConnectionConfig envWithUrl).user = "svc" ∧
    (getConnectionConfig envWithUrl).password = "secret" ∧
    (getConnectionConfig envWithUrl).database = stripLeadingSlash "/proddb" ∧
    (getConnectionConfig envBare).host = "localhost" ∧
    (getConnectionConfig envBare).port = some 3306 ∧
    (getConnectionConfig envBare).user = "root" ∧
    (getConnectionConfig envBare).password = "" ∧
    (getConnectionConfig envBare).database = "lendsqr" := by
  have hurl := claim_C7.2.1 envWithUrl urlFixture rfl
  have hbare := claim_C7.2.2 envBare rfl
  exact ⟨claim_C7.1 envWithUrl envWithUrlOnly urlFixture rfl rfl,
    hurl.1, hurl.2.1, hurl.2.2.1, hurl.2.2.2,
    hbare.1 rfl, hbare.2.1 rfl, hbare.2.2.1 rfl, hbare.2.2.2.1 rfl,
    hbare.2.2.2.2 rfl⟩

/-- C8: on every path of `initializeDatabase` — database present, database
created, catalog query throwing, create throwing, liveness failing,
migration failing, test or non-test environment — the temporary
database-less connection is opened once, used only before its single
`destroy` in the `finally` block, and closed before the main pooled
connection is opened; it is never used for regular queries after that. -/
theorem claim_C8 (o : InitOracle) :
    tempConnectionScoped (initializeDatabase o).1 = true := by
  obtain ⟨sr, cd, lv, mg, te⟩ := o
  cases sr with
  | error e => rfl
  | ok rows =>
    cases rows with
    | nil =>
      cases cd with
      | error e => rfl
      | ok u =>
        cases lv with
        | error e => rfl
        | ok u' => cases te <;> cases mg <;> rfl
    | cons r rs =>
      cases lv with
      | error e => rfl
      | ok u' => cases te <;> cases mg <;> rfl

/-- Well-formedness of the modelled AUTO_INCREMENT column: every stored id
is below the next id the engine will assign (always true of a real table,
where the counter is ahead of every existing row). -/
def Db.wf (db : Db) : Bool :=
  db.rows.all (fun u => u.id.all (fun i => decide (i < db.nextId)))

/-- C10: `createUser` never returns an absent or partially-populated user:
whenever it returns a user (rather than propagating an error or throwing
`'Failed to create user'` on a failed re-read, as its result type shows),
that user is the re-read inserted row and carries the server-assigned id and
both server-assigned timestamps. -/
theorem claim_C10 (db : Db) (input : CreateUserInput) (rng : Nat) (u : User)
    (hwf : db.wf = true) (h : (createUser db input rng).1 = Except.ok u) :
    u.id = some db.nextId ∧ u.created_at = some db.now ∧
    u.updated_at = some db.now := by
  unfold createUser insertUser at h
  dsimp only at h
  by_cases hany : (db.rows.any fun v => v.email == input.email) = true
  · rw [if_pos hany] at h
    simp at h
  · rw [if_neg hany] at h
    dsimp only at h
    have hnone : db.rows.find? (fun v => v.id == some db.nextId) = none := by
      rw [List.find?_eq_none]
      intro x hx
      have hxall := List.all_eq_true.mp hwf x hx
      cases hid : x.id with
      | none => simp [hid]
      | some i =>
        rw [hid] at hxall
        have hlt : i < db.nextId := by simpa using hxall
        simp only [hid, Option.some.injEq, beq_iff_eq]
        omega
    simp only [findUserById, List.find?_append, hnone, Option.none_or,
      List.find?_cons, beq_self_eq_true, Except.ok.injEq] at h
    rw [← h]
    exact ⟨rfl, rfl, rfl⟩

def freshInput : CreateUserInput :=
  { email := "b@x.com", password := "Passw1rd", first_name := "E",
    last_name := "F" }

/-- Witness for C10: creating a fresh user in the demo table returns a user
carrying the server-assigned id 2 and the server clock in both
timestamps. -/
theorem claim_C10_witness :
    ∃ u : User, (createUser demoDb freshInput 1).1 = Except.ok u ∧
      (u.id = some 2 ∧ u.created_at = some 5 ∧ u.updated_at = some 5) :=
  ⟨{ id := some 2, email := "b@x.com", password := hashString "Passw1rd" 1,
     first_name := "E", last_name := "F", created_at := some 5,
     updated_at := some 5 },
   rfl, claim_C10 demoDb freshInput 1 _ rfl rfl⟩

end Lendsqr
